import Mathlib

/-!
Shallow embedding of `src/J4_sulcar/J4_sulcar.ino` (an Arduino sketch: a
jacket that broadcasts its identity over a radio serial link, tracks which
peer jackets are nearby via an RSSI-prefixed 3-byte packet, and drives a
NeoPixel strip through a non-blocking LED state machine from the `loop()`
function).

Modelling conventions:
* `millis()` is modelled as a single `now : Nat` parameter per `loop()`
  iteration.  The C code calls `millis()` several times inside one pass of
  `loop()`; those readings can differ by at most the (tiny) execution time
  of the pass plus the 50 ms debug blink, and no claim below distinguishes
  intra-tick clock drift, so one reading per tick is used.
* `unsigned long` subtraction (`millis() - start`) is 32-bit wrap-around
  subtraction, modelled by `usub` below.
* The serial input available in a tick is a `List Nat` of byte values
  (each < 256 in intended use); `Serial.readBytes(packet, 3)` with at
  least 3 bytes available consumes exactly 3 bytes and returns 3.
* The preprocessor state of the source is respected: `DEBUG_READ` is
  defined (its blocks only print debug text to the serial port, which no
  claim concerns, so the prints are not modelled), `DEBUG_WRITE` is not
  defined, and the large `#if 0 ... #endif` block in `loop()` (lines
  303-387) is excluded from compilation and therefore not modelled.
* Arrays `jacketSeen[4]` / `reactivationDelayStartMs[4]` become functions
  `Fin 4 → Bool` / `Fin 4 → Nat`.  The C code indexes them with the raw
  validated packet byte; `peerIdx` converts the byte to `Fin 4` (for every
  validated id the `% 4` is the identity).
* The source file as committed does not compile as C++: inside the
  `STATE_J2_LED_WIPE_WORKING` case the line `if (co` is truncated
  mid-expression and the pixel write names a field `color_fade_stc.color`
  that `colorFadeStc` does not declare.  The parseable statements of that
  case are modelled as written; the written color value, which has no
  denotation in the source, is modelled as `0`.  No theorem below depends
  on that value (only on the number of writes).
-/

namespace Sulcar

/-- Pixel count `NUMPIXELS` / `strip.numPixels()` for the 16-pixel strip. -/
def NUMPIXELS : Nat := 16

/-- Constant `#define SEEN_THRESHOLD 15`. -/
def SEEN_THRESHOLD : Nat := 15

/-- Constant `#define REACTIVATE_DELAY 10000`. -/
def REACTIVATE_DELAY : Nat := 10000

/-- Constant `#define JACKET_ID_LAST JACKET_ID_4` (= 3). -/
def JACKET_ID_LAST : Nat := 3

/-- Constant `#define MY_ID JACKET_ID_4` (= 3). -/
def MY_ID : Nat := 3

/-- Constant `#define NEO_RED 0x00ff0000`. -/
def NEO_RED : Nat := 0x00ff0000

/-- Constant `#define NEO_GREEN 0x0000ff00`. -/
def NEO_GREEN : Nat := 0x0000ff00

/-- Constant `#define NEO_BLUE 0x000000ff`. -/
def NEO_BLUE : Nat := 0x000000ff

/-- Modulus of Arduino `unsigned long` (32-bit). -/
def U32 : Nat := 2 ^ 32

/-- Wrap-around 32-bit subtraction `a - b` on `unsigned long`. -/
def usub (a b : Nat) : Nat := (a % U32 + (U32 - b % U32)) % U32

/-- The `jacket_led_state` enum of the source. -/
inductive LedState where
  | STATE_NONE
  | STATE_J1_LED_WIPE_START
  | STATE_J1_LED_WIPE_WORKING
  | STATE_J1_LOST
  | STATE_J2_LED_WIPE_START
  | STATE_J2_LED_WIPE_WORKING
  | STATE_J2_LOST
  | STATE_J3_LED_WIPE_START
  | STATE_J3_LED_WIPE_WORKING
  | STATE_J3_LOST
  | STATE_LED_DONE
  | STATE_END
deriving DecidableEq, Repr

/-- The `wipeStc` struct: pixel cursor, color, per-step delay, last step time. -/
structure WipeStc where
  i : Nat
  color : Nat
  msdelay : Nat
  start : Nat
deriving DecidableEq, Repr

/-- The `colorFadeStc` struct of the source (`i, r, g, b, msdelay, start`). -/
structure ColorFadeStc where
  i : Nat
  r : Nat
  g : Nat
  b : Nat
  msdelay : Nat
  start : Nat
deriving DecidableEq, Repr

/-- The global mutable state of the sketch. -/
structure SysState where
  currentLedState : LedState
  previousLedState : LedState
  wipe : WipeStc
  colorFade : ColorFadeStc
  jacketSeen : Fin 4 → Bool
  reactivationDelayStartMs : Fin 4 → Nat
  broadcastDelay : Nat
  broadcastDelayStartMs : Nat

/-- Convert a validated peer-id byte to an array index (identity for ids 0..3). -/
def peerIdx (id : Nat) : Fin 4 := ⟨id % 4, by omega⟩

/-- The `setNextLedState` helper: remember the current state, then switch to `st`. -/
def setNextLedState (s : SysState) (st : LedState) : SysState :=
  { s with previousLedState := s.currentLedState, currentLedState := st }

/-- The `broadcast()` function: when the per-device interval has elapsed, write the 2-byte
frame `{ MY_ID, '\n' }` and restart the interval; otherwise do nothing.
Returns the bytes written in this call. -/
def broadcast (now : Nat) (s : SysState) : List Nat × SysState :=
  if usub now s.broadcastDelayStartMs ≥ s.broadcastDelay then
    ([MY_ID, 10], { s with broadcastDelayStartMs := now })
  else
    ([], s)

/-- The `switch (MY_ID)` in `setup()` choosing `broadcastDelay`. -/
def broadcastDelayFor (id : Nat) : Nat :=
  match id with
  | 0 => 1100
  | 1 => 1150
  | 2 => 1200
  | _ => 1250

/-- Serial packet read of `loop()`: with at least 3 bytes available, consume
exactly 3; the packet is valid iff the third byte is `'\n'` and the second
byte (peer id) is `≤ JACKET_ID_LAST` (the C test `packet[1] >= 0` is always
true for an unsigned byte).  A valid packet is `(rssi, peer id)`; invalid
bytes are consumed and discarded.  With fewer than 3 bytes available nothing
is consumed. -/
def packetOf (input : List Nat) : Option (Nat × Nat) × List Nat :=
  match input with
  | b0 :: b1 :: b2 :: rest =>
      if b2 = 10 ∧ b1 ≤ JACKET_ID_LAST then (some (b0, b1), rest)
      else (none, rest)
  | _ => (none, input)

/-- Guard of the reactivation-timeout loop body for one entry value `t0`. -/
def expCond (now t0 : Nat) : Prop := 0 < t0 ∧ usub now t0 > REACTIVATE_DELAY

instance (now t0 : Nat) : Decidable (expCond now t0) := by
  unfold expCond; infer_instance

/-- One iteration of the reactivation-timeout `for` loop in `loop()`:
if jacket `i` has an active countdown that has exceeded `REACTIVATE_DELAY`,
clear the countdown and mark the jacket unseen. -/
def expireOne (now : Nat) (s : SysState) (i : Fin 4) : SysState :=
  if expCond now (s.reactivationDelayStartMs i) then
    { s with
      reactivationDelayStartMs := Function.update s.reactivationDelayStartMs i 0,
      jacketSeen := Function.update s.jacketSeen i false }
  else s

/-- The whole reactivation-timeout loop `for (i = 0; i <= JACKET_ID_LAST; i++)`. -/
def expireAll (now : Nat) (s : SysState) : SysState :=
  expireOne now (expireOne now (expireOne now (expireOne now s 0) 1) 2) 3

/-- The `if (have_valid_packet)` block of `loop()` (presence update): a
high-RSSI packet marks the sender seen; a low-RSSI packet marks it unseen
and zeroes its reactivation countdown.  (The C code guards the high-RSSI
store with `if (!jacketSeen[...])`; storing `true` unconditionally is the
same function.) -/
def applyPacket (rssi : Nat) (idx : Fin 4) (s : SysState) : SysState :=
  if rssi > SEEN_THRESHOLD then
    { s with jacketSeen := Function.update s.jacketSeen idx true }
  else
    { s with
      jacketSeen := Function.update s.jacketSeen idx false,
      reactivationDelayStartMs := Function.update s.reactivationDelayStartMs idx 0 }

/-- The `determineNextLedState()` function: from idle, start the lowest-id seen jacket's
wipe; from the done marker, pick the next seen jacket in the order rooted
after the jacket whose working phase just finished (read from
`previousLedState`), or fall to `STATE_J1_LOST` when the previous state is
not one of the working states. -/
def determineNextLedState (s : SysState) : SysState :=
  let s :=
    if s.currentLedState = LedState.STATE_NONE then
      if s.jacketSeen 0 then setNextLedState s LedState.STATE_J1_LED_WIPE_START
      else if s.jacketSeen 1 then setNextLedState s LedState.STATE_J2_LED_WIPE_START
      else if s.jacketSeen 2 then setNextLedState s LedState.STATE_J3_LED_WIPE_START
      else s
    else s
  if s.currentLedState = LedState.STATE_LED_DONE then
    if s.previousLedState = LedState.STATE_J1_LED_WIPE_WORKING then
      if s.jacketSeen 1 then setNextLedState s LedState.STATE_J2_LED_WIPE_START
      else if s.jacketSeen 2 then setNextLedState s LedState.STATE_J3_LED_WIPE_START
      else if s.jacketSeen 0 then setNextLedState s LedState.STATE_J1_LED_WIPE_START
      else s
    else if s.previousLedState = LedState.STATE_J2_LED_WIPE_WORKING then
      if s.jacketSeen 2 then setNextLedState s LedState.STATE_J3_LED_WIPE_START
      else if s.jacketSeen 0 then setNextLedState s LedState.STATE_J1_LED_WIPE_START
      else if s.jacketSeen 1 then setNextLedState s LedState.STATE_J2_LED_WIPE_START
      else s
    else if s.previousLedState = LedState.STATE_J3_LED_WIPE_WORKING then
      if s.jacketSeen 0 then setNextLedState s LedState.STATE_J1_LED_WIPE_START
      else if s.jacketSeen 1 then setNextLedState s LedState.STATE_J2_LED_WIPE_START
      else if s.jacketSeen 2 then setNextLedState s LedState.STATE_J3_LED_WIPE_START
      else s
    else setNextLedState s LedState.STATE_J1_LOST
  else s

/-- Body of `case STATE_J1_LED_WIPE_WORKING` (also run by fallthrough from
the J1 start case).  Returns the new state and the list of
`strip.setPixelColor(index, color)` calls made. -/
def j1WorkingBody (now : Nat) (s : SysState) : SysState × List (Nat × Nat) :=
  if usub now s.wipe.start < s.wipe.msdelay then (s, [])
  else
    let writes := [(s.wipe.i, s.wipe.color)]
    let s := { s with wipe := { s.wipe with i := s.wipe.i + 1 } }
    let s :=
      if s.wipe.i ≥ NUMPIXELS then
        if s.wipe.color = NEO_RED then
          { s with wipe := { s.wipe with color := NEO_GREEN, i := 0 } }
        else if s.wipe.color = NEO_GREEN then
          { s with wipe := { s.wipe with color := NEO_BLUE, i := 0 } }
        else setNextLedState s LedState.STATE_LED_DONE
      else s
    ({ s with wipe := { s.wipe with start := now } }, writes)

/-- Body of `case STATE_J2_LED_WIPE_WORKING` (also run by fallthrough from
the J2 start case).  This case of the source is syntactically incomplete
(see the file header); the parseable statements are modelled as written —
in particular the inner `if` chain really reads and mutates `wipe_stc`,
not `color_fade_stc` — and the written color value is modelled as `0`. -/
def j2WorkingBody (now : Nat) (s : SysState) : SysState × List (Nat × Nat) :=
  if usub now s.colorFade.start < s.colorFade.msdelay then (s, [])
  else
    let writes := [(s.colorFade.i, 0)]
    let s := { s with colorFade := { s.colorFade with i := s.colorFade.i + 1 } }
    let s :=
      if s.colorFade.i ≥ NUMPIXELS then
        if s.wipe.color = NEO_RED then
          { s with wipe := { s.wipe with color := NEO_GREEN, i := 0 } }
        else if s.wipe.color = NEO_GREEN then
          { s with wipe := { s.wipe with color := NEO_BLUE, i := 0 } }
        else setNextLedState s LedState.STATE_LED_DONE
      else s
    ({ s with colorFade := { s.colorFade with start := now } }, writes)

/-- Shared body of `case STATE_J1_LOST / STATE_J2_LOST / STATE_J3_LOST`. -/
def lostBody (now : Nat) (s : SysState) : SysState × List (Nat × Nat) :=
  if usub now s.wipe.start < s.wipe.msdelay then (s, [])
  else
    let writes := [(s.wipe.i, s.wipe.color)]
    let s := { s with wipe := { s.wipe with i := s.wipe.i + 1 } }
    let s :=
      if s.wipe.i ≥ NUMPIXELS then setNextLedState s LedState.STATE_NONE else s
    ({ s with wipe := { s.wipe with start := now } }, writes)

/-- The `switch (currentLedState)` at the end of `loop()`, with the source's
fallthroughs made explicit:
* the J1 start case initializes `wipe_stc`, switches to the J1 working state
  and falls through into the working body;
* the J2 start case initializes `color_fade_stc` and falls through into the
  J2 working body, but (unlike J1) never calls `setNextLedState`;
* the J3 start and working cases are empty and fall through into
  `case STATE_LED_DONE: break`;
* `STATE_END` and `default` reset to `STATE_NONE`.
Returns the new state and the `setPixelColor` calls of this pass. -/
def animSwitch (now : Nat) (s : SysState) : SysState × List (Nat × Nat) :=
  match s.currentLedState with
  | LedState.STATE_NONE => (s, [])
  | LedState.STATE_J1_LED_WIPE_START =>
      let s := { s with wipe := { i := 0, color := NEO_RED, msdelay := 25, start := now } }
      let s := setNextLedState s LedState.STATE_J1_LED_WIPE_WORKING
      j1WorkingBody now s
  | LedState.STATE_J1_LED_WIPE_WORKING => j1WorkingBody now s
  | LedState.STATE_J2_LED_WIPE_START =>
      let s := { s with colorFade := { i := 0, r := 255, g := 0, b := 255, msdelay := 50, start := now } }
      j2WorkingBody now s
  | LedState.STATE_J2_LED_WIPE_WORKING => j2WorkingBody now s
  | LedState.STATE_J3_LED_WIPE_START => (s, [])
  | LedState.STATE_J3_LED_WIPE_WORKING => (s, [])
  | LedState.STATE_LED_DONE => (s, [])
  | LedState.STATE_J1_LOST => lostBody now s
  | LedState.STATE_J2_LOST => lostBody now s
  | LedState.STATE_J3_LOST => lostBody now s
  | LedState.STATE_END => (setNextLedState s LedState.STATE_NONE, [])

/-- Observable outputs of one `loop()` pass: bytes written by `broadcast`,
`setPixelColor` calls, and the serial bytes left unconsumed. -/
structure TickOut where
  txBytes : List Nat
  ledWrites : List (Nat × Nat)
  serialRest : List Nat
deriving DecidableEq, Repr

/-- One pass of `loop()`, in source order: `broadcast()`; serial read and
packet validation; the reactivation-timeout loop; the valid-packet presence
update; `determineNextLedState()`; the LED state-machine `switch`. -/
def loopTick (now : Nat) (input : List Nat) (s : SysState) : SysState × TickOut :=
  let tx := (broadcast now s).1
  let s := (broadcast now s).2
  let q := packetOf input
  let s := expireAll now s
  let s :=
    match q.1 with
    | some (rssi, id) => applyPacket rssi (peerIdx id) s
    | none => s
  let s := determineNextLedState s
  let r := animSwitch now s
  (r.1, { txBytes := tx, ledWrites := r.2, serialRest := q.2 })

/-- The state after `setup()` run at time `t`: C++ zero-initialized globals
(`currentLedState = previousLedState = STATE_NONE`, both arrays zeroed,
both structs zeroed), `broadcastDelay` chosen from `MY_ID`, and
`broadcastDelayStartMs = millis()`. -/
def initState (t : Nat) : SysState :=
  { currentLedState := LedState.STATE_NONE
    previousLedState := LedState.STATE_NONE
    wipe := { i := 0, color := 0, msdelay := 0, start := 0 }
    colorFade := { i := 0, r := 0, g := 0, b := 0, msdelay := 0, start := 0 }
    jacketSeen := fun _ => false
    reactivationDelayStartMs := fun _ => 0
    broadcastDelay := broadcastDelayFor MY_ID
    broadcastDelayStartMs := t }

/-- Run a sequence of `loop()` passes; each element is `(now, serial input)`. -/
def runTicks (s : SysState) (ticks : List (Nat × List Nat)) : SysState :=
  ticks.foldl (fun s t => (loopTick t.1 t.2 s).1) s

/-- The `ledWrites` of each pass of a sequence of `loop()` passes, in order. -/
def tickTrace (s : SysState) (ticks : List (Nat × List Nat)) : List (List (Nat × Nat)) :=
  match ticks with
  | [] => []
  | t :: ts => (loopTick t.1 t.2 s).2.ledWrites :: tickTrace (loopTick t.1 t.2 s).1 ts

/-! ### Concrete states and spec-side notions used by individual claims -/

/-- A state in the middle of the J1 red wipe: working phase, cursor at
pixel 0, last step at time 0. -/
def c1StartState : SysState :=
  { initState 0 with
    currentLedState := LedState.STATE_J1_LED_WIPE_WORKING
    previousLedState := LedState.STATE_J1_LED_WIPE_START
    wipe := { i := 0, color := NEO_RED, msdelay := 25, start := 0 } }

/-- The tick schedule of a full 16-pixel wipe pass: one tick every 25 ms,
no serial input. -/
def c1Ticks : List (Nat × List Nat) :=
  (List.range 16).map (fun k => ((k + 1) * 25, []))

/-- One `setPixelColor` call per tick, red, pixels 0,1,...,15 in order. -/
def c1Expected : List (List (Nat × Nat)) :=
  (List.range 16).map (fun k => [(k, NEO_RED)])

/-- A state with an active reactivation countdown for jacket 1 started at
time 5 and jacket 1 not seen. -/
def c2State : SysState :=
  { initState 0 with reactivationDelayStartMs := Function.update (fun _ => 0) 1 5 }

/-- Modelled from the spec: the presence phase in the order the claim
asserts — the packet update applied first, the expiry check after it,
both at the same `now`. -/
def updateThenExpire (now rssi : Nat) (idx : Fin 4) (s : SysState) : SysState :=
  expireAll now (applyPacket rssi idx s)

/-- The done marker with the J1 working phase just completed and no peer
seen. -/
def c3State : SysState :=
  { initState 0 with
    currentLedState := LedState.STATE_LED_DONE
    previousLedState := LedState.STATE_J1_LED_WIPE_WORKING }

/-- The done marker with the J1 working phase just completed and jacket 2
(peer J3) seen. -/
def c3WitnessState : SysState :=
  { c3State with jacketSeen := Function.update (fun _ => false) 2 true }

/-- Peer `k`'s wipe-start state (the animated peers J1, J2, J3 are the
jacket indices 0, 1, 2). -/
def wipeStartOf (j : Fin 4) : LedState :=
  if j.val = 0 then LedState.STATE_J1_LED_WIPE_START
  else if j.val = 1 then LedState.STATE_J2_LED_WIPE_START
  else if j.val = 2 then LedState.STATE_J3_LED_WIPE_START
  else LedState.STATE_NONE

/-- Peer `k`'s wipe-working state. -/
def wipeWorkingOf (k : Fin 3) : LedState :=
  if k.val = 0 then LedState.STATE_J1_LED_WIPE_WORKING
  else if k.val = 1 then LedState.STATE_J2_LED_WIPE_WORKING
  else LedState.STATE_J3_LED_WIPE_WORKING

/-- Modelled from the spec: the round-robin order of the three animated
peers rooted at the peer after `k` (the rotation of `0,1,2` that starts
just past `k` and ends with `k` itself). -/
def rrAfter (k : Fin 3) : List (Fin 4) :=
  if k.val = 0 then [1, 2, 0]
  else if k.val = 1 then [2, 0, 1]
  else [0, 1, 2]

/-- The first peer of `order` whose seen flag is set. -/
def firstReady (seen : Fin 4 → Bool) (order : List (Fin 4)) : Option (Fin 4) :=
  order.find? seen

/-- Idle states entering each wipe-start phase, for the code evaluation of
the start-phase transitions. -/
def c4J1State : SysState :=
  { initState 0 with currentLedState := LedState.STATE_J1_LED_WIPE_START }

/-- State entering the J2 wipe-start phase. -/
def c4J2State : SysState :=
  { initState 0 with currentLedState := LedState.STATE_J2_LED_WIPE_START }

/-- State entering the J3 wipe-start phase. -/
def c4J3State : SysState :=
  { initState 0 with currentLedState := LedState.STATE_J3_LED_WIPE_START }

/-- A state with an active countdown for jacket 2 started at time 7 and
jacket 2 seen. -/
def c6State : SysState :=
  { initState 0 with
    reactivationDelayStartMs := Function.update (fun _ => 0) 2 7
    jacketSeen := Function.update (fun _ => false) 2 true }

/-! ### Helper lemmas: which fields each phase of a tick touches -/

lemma expireOne_react_ne (now : Nat) (s : SysState) {i j : Fin 4} (h : i ≠ j) :
    (expireOne now s i).reactivationDelayStartMs j = s.reactivationDelayStartMs j := by
  unfold expireOne; split <;> simp [Function.update_noteq (Ne.symm h)]

lemma expireOne_seen_ne (now : Nat) (s : SysState) {i j : Fin 4} (h : i ≠ j) :
    (expireOne now s i).jacketSeen j = s.jacketSeen j := by
  unfold expireOne; split <;> simp [Function.update_noteq (Ne.symm h)]

lemma expireOne_react_self (now : Nat) (s : SysState) (i : Fin 4) :
    (expireOne now s i).reactivationDelayStartMs i =
      if expCond now (s.reactivationDelayStartMs i) then 0
      else s.reactivationDelayStartMs i := by
  unfold expireOne; split <;> simp_all

lemma expireOne_seen_self (now : Nat) (s : SysState) (i : Fin 4) :
    (expireOne now s i).jacketSeen i =
      if expCond now (s.reactivationDelayStartMs i) then false
      else s.jacketSeen i := by
  unfold expireOne; split <;> simp_all

lemma expireOne_keeps (now : Nat) (s : SysState) (i : Fin 4) :
    (expireOne now s i).currentLedState = s.currentLedState ∧
    (expireOne now s i).previousLedState = s.previousLedState ∧
    (expireOne now s i).wipe = s.wipe ∧
    (expireOne now s i).colorFade = s.colorFade ∧
    (expireOne now s i).broadcastDelay = s.broadcastDelay ∧
    (expireOne now s i).broadcastDelayStartMs = s.broadcastDelayStartMs := by
  unfold expireOne; split <;> simp

/-- Pointwise effect of the reactivation-timeout loop on the countdown array. -/
lemma expireAll_react (now : Nat) (s : SysState) (j : Fin 4) :
    (expireAll now s).reactivationDelayStartMs j =
      if expCond now (s.reactivationDelayStartMs j) then 0
      else s.reactivationDelayStartMs j := by
  fin_cases j
  · show (expireAll now s).reactivationDelayStartMs 0 =
      if expCond now (s.reactivationDelayStartMs 0) then 0 else s.reactivationDelayStartMs 0
    unfold expireAll
    rw [expireOne_react_ne now _ (by decide), expireOne_react_ne now _ (by decide),
      expireOne_react_ne now _ (by decide), expireOne_react_self]
  · show (expireAll now s).reactivationDelayStartMs 1 =
      if expCond now (s.reactivationDelayStartMs 1) then 0 else s.reactivationDelayStartMs 1
    unfold expireAll
    rw [expireOne_react_ne now _ (by decide), expireOne_react_ne now _ (by decide),
      expireOne_react_self, expireOne_react_ne now _ (by decide)]
  · show (expireAll now s).reactivationDelayStartMs 2 =
      if expCond now (s.reactivationDelayStartMs 2) then 0 else s.reactivationDelayStartMs 2
    unfold expireAll
    rw [expireOne_react_ne now _ (by decide), expireOne_react_self,
      expireOne_react_ne now _ (by decide), expireOne_react_ne now _ (by decide)]
  · show (expireAll now s).reactivationDelayStartMs 3 =
      if expCond now (s.reactivationDelayStartMs 3) then 0 else s.reactivationDelayStartMs 3
    unfold expireAll
    rw [expireOne_react_self, expireOne_react_ne now _ (by decide),
      expireOne_react_ne now _ (by decide), expireOne_react_ne now _ (by decide)]

/-- Pointwise effect of the reactivation-timeout loop on the seen array. -/
lemma expireAll_seen (now : Nat) (s : SysState) (j : Fin 4) :
    (expireAll now s).jacketSeen j =
      if expCond now (s.reactivationDelayStartMs j) then false
      else s.jacketSeen j := by
  fin_cases j
  · show (expireAll now s).jacketSeen 0 =
      if expCond now (s.reactivationDelayStartMs 0) then false else s.jacketSeen 0
    unfold expireAll
    rw [expireOne_seen_ne now _ (by decide), expireOne_seen_ne now _ (by decide),
      expireOne_seen_ne now _ (by decide), expireOne_seen_self]
  · show (expireAll now s).jacketSeen 1 =
      if expCond now (s.reactivationDelayStartMs 1) then false else s.jacketSeen 1
    unfold expireAll
    rw [expireOne_seen_ne now _ (by decide), expireOne_seen_ne now _ (by decide),
      expireOne_seen_self, expireOne_react_ne now _ (by decide),
      expireOne_seen_ne now _ (by decide)]
  · show (expireAll now s).jacketSeen 2 =
      if expCond now (s.reactivationDelayStartMs 2) then false else s.jacketSeen 2
    unfold expireAll
    rw [expireOne_seen_ne now _ (by decide), expireOne_seen_self,
      expireOne_react_ne now _ (by decide), expireOne_react_ne now _ (by decide),
      expireOne_seen_ne now _ (by decide), expireOne_seen_ne now _ (by decide)]
  · show (expireAll now s).jacketSeen 3 =
      if expCond now (s.reactivationDelayStartMs 3) then false else s.jacketSeen 3
    unfold expireAll
    rw [expireOne_seen_self, expireOne_react_ne now _ (by decide),
      expireOne_react_ne now _ (by decide), expireOne_react_ne now _ (by decide),
      expireOne_seen_ne now _ (by decide), expireOne_seen_ne now _ (by decide),
      expireOne_seen_ne now _ (by decide)]

lemma expireAll_keeps (now : Nat) (s : SysState) :
    (expireAll now s).currentLedState = s.currentLedState ∧
    (expireAll now s).previousLedState = s.previousLedState ∧
    (expireAll now s).wipe = s.wipe ∧
    (expireAll now s).colorFade = s.colorFade ∧
    (expireAll now s).broadcastDelay = s.broadcastDelay ∧
    (expireAll now s).broadcastDelayStartMs = s.broadcastDelayStartMs := by
  simp [expireAll, expireOne_keeps]

lemma broadcast_keeps (now : Nat) (s : SysState) :
    ((broadcast now s).2).currentLedState = s.currentLedState ∧
    ((broadcast now s).2).previousLedState = s.previousLedState ∧
    ((broadcast now s).2).wipe = s.wipe ∧
    ((broadcast now s).2).colorFade = s.colorFade ∧
    ((broadcast now s).2).jacketSeen = s.jacketSeen ∧
    ((broadcast now s).2).reactivationDelayStartMs = s.reactivationDelayStartMs ∧
    ((broadcast now s).2).broadcastDelay = s.broadcastDelay := by
  unfold broadcast; split <;> simp

lemma applyPacket_keeps (rssi : Nat) (idx : Fin 4) (s : SysState) :
    (applyPacket rssi idx s).currentLedState = s.currentLedState ∧
    (applyPacket rssi idx s).previousLedState = s.previousLedState ∧
    (applyPacket rssi idx s).wipe = s.wipe ∧
    (applyPacket rssi idx s).colorFade = s.colorFade ∧
    (applyPacket rssi idx s).broadcastDelay = s.broadcastDelay ∧
    (applyPacket rssi idx s).broadcastDelayStartMs = s.broadcastDelayStartMs := by
  unfold applyPacket; split <;> simp

@[simp] lemma setNextLedState_seen (s : SysState) (st : LedState) :
    (setNextLedState s st).jacketSeen = s.jacketSeen := rfl

@[simp] lemma setNextLedState_react (s : SysState) (st : LedState) :
    (setNextLedState s st).reactivationDelayStartMs = s.reactivationDelayStartMs := rfl

@[simp] lemma setNextLedState_wipe (s : SysState) (st : LedState) :
    (setNextLedState s st).wipe = s.wipe := rfl

@[simp] lemma setNextLedState_colorFade (s : SysState) (st : LedState) :
    (setNextLedState s st).colorFade = s.colorFade := rfl

@[simp] lemma setNextLedState_bd (s : SysState) (st : LedState) :
    (setNextLedState s st).broadcastDelay = s.broadcastDelay := rfl

@[simp] lemma setNextLedState_bdsm (s : SysState) (st : LedState) :
    (setNextLedState s st).broadcastDelayStartMs = s.broadcastDelayStartMs := rfl

@[simp] lemma setNextLedState_current (s : SysState) (st : LedState) :
    (setNextLedState s st).currentLedState = st := rfl

@[simp] lemma setNextLedState_previous (s : SysState) (st : LedState) :
    (setNextLedState s st).previousLedState = s.currentLedState := rfl

lemma determineNextLedState_keeps (s : SysState) :
    (determineNextLedState s).jacketSeen = s.jacketSeen ∧
    (determineNextLedState s).reactivationDelayStartMs = s.reactivationDelayStartMs ∧
    (determineNextLedState s).wipe = s.wipe ∧
    (determineNextLedState s).colorFade = s.colorFade ∧
    (determineNextLedState s).broadcastDelay = s.broadcastDelay ∧
    (determineNextLedState s).broadcastDelayStartMs = s.broadcastDelayStartMs := by
  simp only [determineNextLedState]
  simp [apply_ite SysState.jacketSeen, apply_ite SysState.reactivationDelayStartMs,
    apply_ite SysState.wipe, apply_ite SysState.colorFade,
    apply_ite SysState.broadcastDelay, apply_ite SysState.broadcastDelayStartMs, ite_self]

lemma j1WorkingBody_keeps (now : Nat) (s : SysState) :
    ((j1WorkingBody now s).1).jacketSeen = s.jacketSeen ∧
    ((j1WorkingBody now s).1).reactivationDelayStartMs = s.reactivationDelayStartMs ∧
    ((j1WorkingBody now s).1).colorFade = s.colorFade ∧
    ((j1WorkingBody now s).1).broadcastDelay = s.broadcastDelay ∧
    ((j1WorkingBody now s).1).broadcastDelayStartMs = s.broadcastDelayStartMs := by
  simp only [j1WorkingBody]
  split_ifs <;> simp

lemma j2WorkingBody_keeps (now : Nat) (s : SysState) :
    ((j2WorkingBody now s).1).jacketSeen = s.jacketSeen ∧
    ((j2WorkingBody now s).1).reactivationDelayStartMs = s.reactivationDelayStartMs ∧
    ((j2WorkingBody now s).1).broadcastDelay = s.broadcastDelay ∧
    ((j2WorkingBody now s).1).broadcastDelayStartMs = s.broadcastDelayStartMs := by
  simp only [j2WorkingBody]
  split_ifs <;> simp

lemma lostBody_keeps (now : Nat) (s : SysState) :
    ((lostBody now s).1).jacketSeen = s.jacketSeen ∧
    ((lostBody now s).1).reactivationDelayStartMs = s.reactivationDelayStartMs ∧
    ((lostBody now s).1).colorFade = s.colorFade ∧
    ((lostBody now s).1).broadcastDelay = s.broadcastDelay ∧
    ((lostBody now s).1).broadcastDelayStartMs = s.broadcastDelayStartMs := by
  simp only [lostBody]
  split_ifs <;> simp

lemma animSwitch_keeps (now : Nat) (s : SysState) :
    ((animSwitch now s).1).jacketSeen = s.jacketSeen ∧
    ((animSwitch now s).1).reactivationDelayStartMs = s.reactivationDelayStartMs ∧
    ((animSwitch now s).1).broadcastDelay = s.broadcastDelay ∧
    ((animSwitch now s).1).broadcastDelayStartMs = s.broadcastDelayStartMs := by
  cases hc : s.currentLedState <;>
    simp [animSwitch, hc, j1WorkingBody_keeps, j2WorkingBody_keeps, lostBody_keeps]

/-- Pointwise effect of one whole `loop()` pass on the seen array: the
timeout loop may clear, then a valid packet overrides at its peer index. -/
lemma loopTick_seen_at (now : Nat) (input : List Nat) (s : SysState) (j : Fin 4) :
    ((loopTick now input s).1).jacketSeen j =
      match (packetOf input).1 with
      | some (rssi, id) =>
          if peerIdx id = j then decide (rssi > SEEN_THRESHOLD)
          else if expCond now (s.reactivationDelayStartMs j) then false else s.jacketSeen j
      | none =>
          if expCond now (s.reactivationDelayStartMs j) then false else s.jacketSeen j := by
  rcases hq : (packetOf input).1 with _ | ⟨rssi, id⟩
  · simp only [loopTick, hq]
    rw [(animSwitch_keeps _ _).1, (determineNextLedState_keeps _).1, expireAll_seen,
      (broadcast_keeps now s).2.2.2.2.1, (broadcast_keeps now s).2.2.2.2.2.1]
  · simp only [loopTick, hq]
    rw [(animSwitch_keeps _ _).1, (determineNextLedState_keeps _).1]
    unfold applyPacket
    split
    · rename_i hr
      simp only [Function.update_apply, expireAll_seen,
        (broadcast_keeps now s).2.2.2.2.1, (broadcast_keeps now s).2.2.2.2.2.1]
      by_cases hij : peerIdx id = j
      · simp [hij, hr]
      · have hji : ¬(j = peerIdx id) := fun h => hij h.symm
        simp [hij, hji]
    · rename_i hr
      simp only [Function.update_apply, expireAll_seen,
        (broadcast_keeps now s).2.2.2.2.1, (broadcast_keeps now s).2.2.2.2.2.1]
      by_cases hij : peerIdx id = j
      · simp [hij, hr]
      · have hji : ¬(j = peerIdx id) := fun h => hij h.symm
        simp [hij, hji]

/-- Pointwise effect of one whole `loop()` pass on the countdown array: the
timeout loop may zero an entry, and a low-RSSI packet zeroes its peer's. -/
lemma loopTick_react_at (now : Nat) (input : List Nat) (s : SysState) (j : Fin 4) :
    ((loopTick now input s).1).reactivationDelayStartMs j =
      match (packetOf input).1 with
      | some (rssi, id) =>
          if peerIdx id = j ∧ rssi ≤ SEEN_THRESHOLD then 0
          else if expCond now (s.reactivationDelayStartMs j) then 0
            else s.reactivationDelayStartMs j
      | none =>
          if expCond now (s.reactivationDelayStartMs j) then 0
          else s.reactivationDelayStartMs j := by
  rcases hq : (packetOf input).1 with _ | ⟨rssi, id⟩
  · simp only [loopTick, hq]
    rw [(animSwitch_keeps _ _).2.1, (determineNextLedState_keeps _).2.1, expireAll_react,
      (broadcast_keeps now s).2.2.2.2.2.1]
  · simp only [loopTick, hq]
    rw [(animSwitch_keeps _ _).2.1, (determineNextLedState_keeps _).2.1]
    unfold applyPacket
    split
    · rename_i hr
      simp only [expireAll_react, (broadcast_keeps now s).2.2.2.2.2.1]
      have hnr : ¬(peerIdx id = j ∧ rssi ≤ SEEN_THRESHOLD) :=
        fun hc => absurd hc.2 (by omega)
      simp [hnr]
    · rename_i hr
      have hr2 : rssi ≤ SEEN_THRESHOLD := by omega
      simp only [Function.update_apply, expireAll_react,
        (broadcast_keeps now s).2.2.2.2.2.1]
      by_cases hij : peerIdx id = j
      · simp [hij, hr2]
      · have hji : ¬(j = peerIdx id) := fun h => hij h.symm
        simp [hij, hji]

/-! ### Claims -/

/-- C1: on every tick, in every animation state, the LED state machine of
`loop()` makes at most one `setPixelColor` call (no inner loop over the
strip), and a full wipe pass of the 16-pixel strip takes 16 separate ticks
with exactly one pixel write each, in pixel order. -/
theorem c1_one_pixel_write_per_tick :
    (∀ (now : Nat) (s : SysState), ((animSwitch now s).2).length ≤ 1) ∧
    tickTrace c1StartState c1Ticks = c1Expected := by
  constructor
  · intro now s
    cases hc : s.currentLedState <;>
      simp only [animSwitch, hc, j1WorkingBody, j2WorkingBody, lostBody] <;>
      (try split) <;> simp
  · decide

/-- C3 counterexample: in the done-marker state with the J1 working phase
just completed and no peer seen, one `determineNextLedState` step does not
return the state to idle (`STATE_NONE`); the state stays `STATE_LED_DONE`. -/
theorem c3_cex :
    (determineNextLedState c3State).currentLedState ≠ LedState.STATE_NONE := by
  decide

/-- C3 (amended): when the state is the done marker, one step selects the
next peer whose seen flag is true in the round-robin order rooted at the
peer after the one whose wipe-working phase just completed (read from the
retained previous state) and enters that peer's wipe-start state; if no
peer is seen the state stays at the done marker (it does not return to
idle), and if the previous state is not one of the wipe-working states the
step enters `STATE_J1_LOST`. -/
theorem c3_done_selects_round_robin (s : SysState)
    (hc : s.currentLedState = LedState.STATE_LED_DONE) :
    (∀ k : Fin 3, s.previousLedState = wipeWorkingOf k →
       determineNextLedState s =
         (match firstReady s.jacketSeen (rrAfter k) with
          | some j => setNextLedState s (wipeStartOf j)
          | none => s)) ∧
    ((∀ k : Fin 3, s.previousLedState ≠ wipeWorkingOf k) →
       determineNextLedState s = setNextLedState s LedState.STATE_J1_LOST) := by
  constructor
  · intro k hk
    fin_cases k <;> simp only [wipeWorkingOf] at hk <;> norm_num at hk <;>
      cases hb0 : s.jacketSeen 0 <;> cases hb1 : s.jacketSeen 1 <;>
        cases hb2 : s.jacketSeen 2 <;>
        simp [determineNextLedState, firstReady, rrAfter, wipeStartOf,
          List.find?, hc, hk, hb0, hb1, hb2]
  · intro hne
    have h0 := hne 0
    have h1 := hne 1
    have h2 := hne 2
    simp only [wipeWorkingOf] at h0 h1 h2
    norm_num at h0 h1 h2
    simp [determineNextLedState, hc, h0, h1, h2]

/-- C3 witness: with jacket 2 seen and the J1 working phase just completed,
the done step starts the J3 wipe. -/
theorem c3_round_robin_witness :
    (determineNextLedState c3WitnessState).currentLedState =
      LedState.STATE_J3_LED_WIPE_START := by
  have h := (c3_done_selects_round_robin c3WitnessState (by decide)).1 0 (by decide)
  rw [h]; decide

/-- C4 (evaluation of the start-phase transitions in the code): the J1
wipe-start case initializes the wipe context and switches to the J1 working
state on the same tick, but the J2 wipe-start case initializes the fade
context without ever leaving `STATE_J2_LED_WIPE_START`, and the J3
wipe-start case changes nothing at all. -/
theorem c4_wipe_start_eval :
    (((animSwitch 1000 c4J1State).1).currentLedState =
        LedState.STATE_J1_LED_WIPE_WORKING ∧
      ((animSwitch 1000 c4J1State).1).wipe =
        { i := 0, color := NEO_RED, msdelay := 25, start := 1000 }) ∧
    (((animSwitch 1000 c4J2State).1).currentLedState =
        LedState.STATE_J2_LED_WIPE_START ∧
      ((animSwitch 1000 c4J2State).1).colorFade =
        { i := 0, r := 255, g := 0, b := 255, msdelay := 50, start := 1000 }) ∧
    (((animSwitch 1000 c4J3State).1).currentLedState =
        LedState.STATE_J3_LED_WIPE_START ∧
      ((animSwitch 1000 c4J3State).1).colorFade = c4J3State.colorFade ∧
      ((animSwitch 1000 c4J3State).1).wipe = c4J3State.wipe ∧
      (animSwitch 1000 c4J3State).2 = []) := by
  refine ⟨⟨?_, ?_⟩, ⟨?_, ?_⟩, ?_, ?_, ?_, ?_⟩ <;> decide

/-- C5: for a valid packet, `rssi > SEEN_THRESHOLD` marks the peer seen and
leaves the countdown array untouched, repeating the identical packet for an
already-seen peer changes nothing, and `rssi ≤ SEEN_THRESHOLD` marks the
peer unseen and zeroes its countdown, regardless of prior state. -/
theorem c5_update_contract (s : SysState) (rssi : Nat) (idx : Fin 4) :
    (rssi > SEEN_THRESHOLD →
       (applyPacket rssi idx s).jacketSeen idx = true ∧
       (applyPacket rssi idx s).reactivationDelayStartMs =
         s.reactivationDelayStartMs ∧
       applyPacket rssi idx (applyPacket rssi idx s) = applyPacket rssi idx s ∧
       (s.jacketSeen idx = true → applyPacket rssi idx s = s)) ∧
    (rssi ≤ SEEN_THRESHOLD →
       (applyPacket rssi idx s).jacketSeen idx = false ∧
       (applyPacket rssi idx s).reactivationDelayStartMs idx = 0) := by
  constructor
  · intro hr
    refine ⟨?_, ?_, ?_, ?_⟩
    · simp [applyPacket, hr]
    · simp [applyPacket, hr]
    · simp [applyPacket, hr, Function.update_idem]
    · intro hs
      have hself : Function.update s.jacketSeen idx true = s.jacketSeen := by
        rw [← hs]; exact Function.update_eq_self idx s.jacketSeen
      simp [applyPacket, hr, hself]
  · intro hr
    have hnr : ¬ rssi > SEEN_THRESHOLD := by omega
    simp [applyPacket, hnr]

/-- C5 witness: a high-RSSI packet for jacket 1 marks it seen; a low-RSSI
one marks it unseen. -/
theorem c5_update_witness :
    (applyPacket 20 1 (initState 0)).jacketSeen 1 = true ∧
    (applyPacket 5 1 (initState 0)).jacketSeen 1 = false :=
  ⟨((c5_update_contract (initState 0) 20 1).1 (by decide)).1,
   ((c5_update_contract (initState 0) 5 1).2 (by decide)).1⟩

/-- C6: for a peer with an active countdown started at `t0`, the timeout
loop at `now = t0 + REACTIVATE_DELAY + 1` clears the countdown and forces
the seen flag false, while at `now = t0 + REACTIVATE_DELAY - 1` it leaves
the countdown and the seen flag unchanged. -/
theorem c6_timeout_boundary (s : SysState) (p : Fin 4) (t0 : Nat)
    (h0 : s.reactivationDelayStartMs p = t0) (hpos : 0 < t0)
    (hb : t0 + REACTIVATE_DELAY + 1 < U32) :
    ((expireAll (t0 + REACTIVATE_DELAY + 1) s).reactivationDelayStartMs p = 0 ∧
     (expireAll (t0 + REACTIVATE_DELAY + 1) s).jacketSeen p = false) ∧
    ((expireAll (t0 + REACTIVATE_DELAY - 1) s).reactivationDelayStartMs p = t0 ∧
     (expireAll (t0 + REACTIVATE_DELAY - 1) s).jacketSeen p = s.jacketSeen p) := by
  have hU : U32 = 4294967296 := by norm_num [U32]
  have hD : REACTIVATE_DELAY = 10000 := rfl
  rw [hU, hD] at hb
  have hplus : usub (t0 + REACTIVATE_DELAY + 1) t0 = REACTIVATE_DELAY + 1 := by
    unfold usub; rw [hU, hD]; omega
  have hminus : usub (t0 + REACTIVATE_DELAY - 1) t0 = REACTIVATE_DELAY - 1 := by
    unfold usub; rw [hU, hD]; omega
  have hcp : expCond (t0 + REACTIVATE_DELAY + 1) t0 :=
    ⟨hpos, by rw [hplus]; omega⟩
  have hcm : ¬ expCond (t0 + REACTIVATE_DELAY - 1) t0 :=
    fun hcon => absurd hcon.2 (by rw [hminus]; omega)
  refine ⟨⟨?_, ?_⟩, ?_, ?_⟩
  · rw [expireAll_react, h0]; simp [hcp]
  · rw [expireAll_seen, h0]; simp [hcp]
  · rw [expireAll_react, h0]; simp [hcm]
  · rw [expireAll_seen, h0]; simp [hcm]

/-- C6 witness: for jacket 2 with countdown started at time 7, the timeout
loop clears at 7 + REACTIVATE_DELAY + 1 and leaves it at
7 + REACTIVATE_DELAY - 1. -/
theorem c6_timeout_witness :
    (expireAll (7 + REACTIVATE_DELAY + 1) c6State).jacketSeen 2 = false ∧
    (expireAll (7 + REACTIVATE_DELAY - 1) c6State).jacketSeen 2 = true := by
  have h := c6_timeout_boundary c6State 2 7 (by decide) (by decide) (by decide)
  exact ⟨h.1.2, by rw [h.2.2]; decide⟩

/-- C7: a 3-byte serial read yields a packet exactly when all 3 bytes were
available, the third byte is the newline terminator, and the peer id is in
range; otherwise the 3 bytes are consumed with no presence change (the tick
behaves exactly as a tick with no input); `[20, 1, 0x41]` and
`[20, 9, 0x0A]` change nothing, while `[20, 1, 0x0A]` sets jacket 1 seen. -/
theorem c7_framing (input : List Nat) :
    (∀ b0 b1 b2 rest, input = b0 :: b1 :: b2 :: rest →
       (packetOf input).2 = rest ∧
       ((packetOf input).1 = some (b0, b1) ↔ (b2 = 10 ∧ b1 ≤ JACKET_ID_LAST))) ∧
    (input.length < 3 → packetOf input = (none, input)) ∧
    (∀ now s, (loopTick now [20, 1, 0x41] s).1 = (loopTick now [] s).1) ∧
    (∀ now s, (loopTick now [20, 9, 0x0A] s).1 = (loopTick now [] s).1) ∧
    (∀ now s, ((loopTick now [20, 1, 0x0A] s).1).jacketSeen 1 = true) := by
  refine ⟨?_, ?_, ?_, ?_, ?_⟩
  · intro b0 b1 b2 rest h
    subst h
    simp only [packetOf]
    constructor
    · split <;> rfl
    · split <;> rename_i hcond <;> simp_all
  · intro h
    match input with
    | [] => rfl
    | [a] => rfl
    | [a, b] => rfl
    | a :: b :: c :: rest => simp at h; omega
  · intro now s
    simp [loopTick, packetOf, JACKET_ID_LAST]
  · intro now s
    simp [loopTick, packetOf, JACKET_ID_LAST]
  · intro now s
    rw [loopTick_seen_at]
    have hq : (packetOf [20, 1, 0x0A]).1 = some (20, 1) := by
      simp [packetOf, JACKET_ID_LAST]
    rw [hq]
    simp [show peerIdx 1 = (1 : Fin 4) from rfl, SEEN_THRESHOLD]

/-- C7 witness: a wrong-terminator frame is consumed but produces no
packet. -/
theorem c7_framing_witness :
    (packetOf [20, 1, 0x41]).2 = [] ∧
    ¬ (packetOf [20, 1, 0x41]).1 = some (20, 1) := by
  have h := (c7_framing [20, 1, 0x41]).1 20 1 0x41 [] rfl
  exact ⟨h.1, fun hc => by have := h.2.mp hc; omega⟩

/-- C8: the beacon emits exactly the 2-byte frame `{MY_ID, '\n'}` and
restarts its interval when the interval has elapsed, is a no-op otherwise,
and the interval is a distinct fixed constant per device identity chosen at
startup. -/
theorem c8_beacon (s : SysState) (now t : Nat) :
    (usub now s.broadcastDelayStartMs ≥ s.broadcastDelay →
       broadcast now s = ([MY_ID, 10], { s with broadcastDelayStartMs := now })) ∧
    (usub now s.broadcastDelayStartMs < s.broadcastDelay →
       broadcast now s = ([], s)) ∧
    (initState t).broadcastDelay = broadcastDelayFor MY_ID ∧
    (∀ a b : Fin 4, a ≠ b → broadcastDelayFor a.val ≠ broadcastDelayFor b.val) := by
  refine ⟨?_, ?_, rfl, ?_⟩
  · intro h
    simp [broadcast, h]
  · intro h
    have hn : ¬ usub now s.broadcastDelayStartMs ≥ s.broadcastDelay := by omega
    simp [broadcast, hn]
  · decide

/-- C8 witness: at `now = 1250` from a fresh start the beacon of jacket 4
fires its 2-byte frame and restarts the interval. -/
theorem c8_beacon_witness :
    broadcast 1250 (initState 0) =
      ([MY_ID, 10], { initState 0 with broadcastDelayStartMs := 1250 }) :=
  (c8_beacon (initState 0) 1250 0).1 (by decide)

/-- C2 counterexample: with jacket 1's countdown started at time 5, an
in-range packet `[20, 1, '\n']` arriving in the tick at `now = 10006`
(past the expiry deadline) leaves jacket 1 seen at end of tick, whereas
applying the packet update before the expiry check — the order the claim
asserts — would leave it unseen: the code's presence phase is therefore
not update-before-expire. -/
theorem c2_cex :
    ((loopTick 10006 [20, 1, 10] c2State).1).jacketSeen 1 = true ∧
    (updateThenExpire 10006 20 (peerIdx 1) c2State).jacketSeen 1 = false := by
  constructor <;> decide

/-- C2 (amended): within every tick the reactivation-timeout expiry check
runs before the presence update from that tick's packet, both at the tick's
single clock reading, so a valid in-range packet arriving in the same tick
as its peer's expiry deadline is applied after the expiry clear and still
ends the tick with the peer seen (the packet is not lost; the cleared
countdown stays cleared). -/
theorem c2_expire_before_update (s : SysState) (now rssi id t0 : Nat)
    (rest : List Nat) (hid : id ≤ JACKET_ID_LAST) (hr : rssi > SEEN_THRESHOLD)
    (h0 : s.reactivationDelayStartMs (peerIdx id) = t0) (hpos : 0 < t0)
    (hexp : usub now t0 > REACTIVATE_DELAY) :
    ((loopTick now (rssi :: id :: 10 :: rest) s).1).jacketSeen (peerIdx id) = true ∧
    ((loopTick now (rssi :: id :: 10 :: rest) s).1).reactivationDelayStartMs
        (peerIdx id) = 0 := by
  have hq : (packetOf (rssi :: id :: 10 :: rest)).1 = some (rssi, id) := by
    simp [packetOf, hid]
  have hcond : expCond now (s.reactivationDelayStartMs (peerIdx id)) := by
    rw [h0]; exact ⟨hpos, hexp⟩
  constructor
  · rw [loopTick_seen_at, hq]
    simp [hr]
  · rw [loopTick_react_at, hq]
    have hnr : ¬ (peerIdx id = peerIdx id ∧ rssi ≤ SEEN_THRESHOLD) :=
      fun hcon => absurd hcon.2 (by omega)
    simp [hnr, hcond]

/-- C2 witness: the amended ordering property at the counterexample's own
input. -/
theorem c2_expire_before_update_witness :
    ((loopTick 10006 [20, 1, 10] c2State).1).reactivationDelayStartMs
      (peerIdx 1) = 0 :=
  (c2_expire_before_update c2State 10006 20 1 5 [] (by decide) (by decide)
    (by decide) (by decide) (by decide)).2

/-- One `loop()` pass keeps an all-zero countdown array all zero: the
timeout loop zeroes or keeps entries, and a packet only ever writes zero. -/
lemma loopTick_react_zero (now : Nat) (input : List Nat) (s : SysState)
    (h : ∀ i, s.reactivationDelayStartMs i = 0) :
    ∀ i, ((loopTick now input s).1).reactivationDelayStartMs i = 0 := by
  intro i
  rw [loopTick_react_at]
  have hc : ¬ expCond now (s.reactivationDelayStartMs i) := by
    rw [h i]; exact fun hcon => absurd hcon.1 (by omega)
  rcases hq : (packetOf input).1 with _ | ⟨rssi, id⟩ <;> simp [hc, h i]

/-- Any run from the zero-initialized startup state keeps the countdown
array all zero. -/
lemma runTicks_react_zero (ticks : List (Nat × List Nat)) :
    ∀ s, (∀ i, s.reactivationDelayStartMs i = 0) →
      ∀ i, (runTicks s ticks).reactivationDelayStartMs i = 0 := by
  induction ticks with
  | nil => exact fun s h i => h i
  | cons hd tl ih =>
      intro s h i
      exact ih (loopTick hd.1 hd.2 s).1 (loopTick_react_zero hd.1 hd.2 s h) i

/-- With an all-zero countdown array the timeout loop is the identity. -/
lemma expireAll_id (now : Nat) (s : SysState)
    (h : ∀ i, s.reactivationDelayStartMs i = 0) : expireAll now s = s := by
  have h1 : ∀ i, expireOne now s i = s := by
    intro i
    unfold expireOne
    rw [h i]
    exact if_neg (fun hcon => absurd hcon.1 (by omega))
  unfold expireAll
  rw [h1 0, h1 1, h1 2, h1 3]

/-- C9: in every state reachable from startup the reactivation countdown of
every jacket is 0 (no live code path starts one), hence the timeout loop is
the identity there, and a seen flag can only go from true to false across a
tick through a valid packet for that jacket with RSSI at or below the
threshold. -/
theorem c9_no_countdown_ever (t : Nat) (ticks : List (Nat × List Nat)) :
    (∀ i, (runTicks (initState t) ticks).reactivationDelayStartMs i = 0) ∧
    (∀ now, expireAll now (runTicks (initState t) ticks) =
      runTicks (initState t) ticks) ∧
    (∀ now input (i : Fin 4),
       (runTicks (initState t) ticks).jacketSeen i = true →
       ((loopTick now input (runTicks (initState t) ticks)).1).jacketSeen i
           = false →
       ∃ b0 b1 b2 rest, input = b0 :: b1 :: b2 :: rest ∧ b2 = 10 ∧
         b1 ≤ JACKET_ID_LAST ∧ peerIdx b1 = i ∧ b0 ≤ SEEN_THRESHOLD) := by
  have hz : ∀ i, (runTicks (initState t) ticks).reactivationDelayStartMs i = 0 :=
    runTicks_react_zero ticks (initState t) (fun _ => rfl)
  refine ⟨hz, fun now => expireAll_id now _ hz, ?_⟩
  intro now input i hs hafter
  rw [loopTick_seen_at] at hafter
  have hnc : ¬ expCond now
      ((runTicks (initState t) ticks).reactivationDelayStartMs i) := by
    rw [hz i]; exact fun hcon => absurd hcon.1 (by omega)
  match hin : input with
  | [] => simp [packetOf, hnc, hs] at hafter
  | [a] => simp [packetOf, hnc, hs] at hafter
  | [a, b] => simp [packetOf, hnc, hs] at hafter
  | b0 :: b1 :: b2 :: rest =>
      by_cases hv : b2 = 10 ∧ b1 ≤ JACKET_ID_LAST
      · have hq : (packetOf (b0 :: b1 :: b2 :: rest)).1 = some (b0, b1) := by
          simp [packetOf, hv]
        rw [hq] at hafter
        by_cases hij : peerIdx b1 = i
        · refine ⟨b0, b1, b2, rest, rfl, hv.1, hv.2, hij, ?_⟩
          simp [hij] at hafter
          omega
        · simp [hij, hnc, hs] at hafter
      · have hq : (packetOf (b0 :: b1 :: b2 :: rest)).1 = none := by
          simp only [packetOf]
          rw [if_neg hv]
        rw [hq] at hafter
        simp [hnc, hs] at hafter

/-- C9 witness: from startup, one tick with `[20, 1, '\n']` marks jacket 1
seen; a following tick that clears it must carry a valid low-RSSI packet
for jacket 1 — instantiated with input `[5, 1, '\n']`. -/
theorem c9_no_countdown_witness :
    ∃ b0 b1 b2 rest, ([5, 1, 10] : List Nat) = b0 :: b1 :: b2 :: rest ∧
      b2 = 10 ∧ b1 ≤ JACKET_ID_LAST ∧ peerIdx b1 = 1 ∧ b0 ≤ SEEN_THRESHOLD :=
  (c9_no_countdown_ever 0 [(0, [20, 1, 10])]).2.2 0 [5, 1, 10] 1
    (by decide) (by decide)

/-- C10: the presence update does not exclude the device's own identity —
a valid packet with peer id `MY_ID = 3` sets (or clears) `jacketSeen[3]`
by its RSSI — while `determineNextLedState` never reads `jacketSeen[3]`:
flipping that entry changes neither the current nor the previous LED state
it produces. -/
theorem c10_self_id_not_excluded (s : SysState) (rssi now : Nat) :
    (rssi > SEEN_THRESHOLD →
       ((loopTick now [rssi, MY_ID, 10] s).1).jacketSeen 3 = true) ∧
    (rssi ≤ SEEN_THRESHOLD →
       ((loopTick now [rssi, MY_ID, 10] s).1).jacketSeen 3 = false) ∧
    (∀ b : Bool,
       (determineNextLedState
           { s with jacketSeen := Function.update s.jacketSeen 3 b
           }).currentLedState = (determineNextLedState s).currentLedState ∧
       (determineNextLedState
           { s with jacketSeen := Function.update s.jacketSeen 3 b
           }).previousLedState = (determineNextLedState s).previousLedState) := by
  have hq : (packetOf [rssi, MY_ID, 10]).1 = some (rssi, MY_ID) := by
    simp [packetOf, MY_ID, JACKET_ID_LAST]
  have hp3 : peerIdx MY_ID = (3 : Fin 4) := rfl
  refine ⟨?_, ?_, ?_⟩
  · intro hr
    rw [loopTick_seen_at, hq]
    simp [hp3, hr]
  · intro hr
    rw [loopTick_seen_at, hq]
    simp [hp3, show ¬ rssi > SEEN_THRESHOLD by omega]
  · intro b
    have h0 : Function.update s.jacketSeen 3 b 0 = s.jacketSeen 0 :=
      Function.update_noteq (by decide) _ _
    have h1 : Function.update s.jacketSeen 3 b 1 = s.jacketSeen 1 :=
      Function.update_noteq (by decide) _ _
    have h2 : Function.update s.jacketSeen 3 b 2 = s.jacketSeen 2 :=
      Function.update_noteq (by decide) _ _
    constructor <;>
      simp [determineNextLedState, h0, h1, h2,
        apply_ite SysState.currentLedState, apply_ite SysState.previousLedState,
        apply_ite SysState.jacketSeen, ite_self]

/-- C10 witness: from startup, a high-RSSI packet naming the device's own
id 3 really sets `jacketSeen[3]`. -/
theorem c10_self_id_witness :
    ((loopTick 0 [20, MY_ID, 10] (initState 0)).1).jacketSeen 3 = true :=
  (c10_self_id_not_excluded (initState 0) 20 0).1 (by decide)

end Sulcar
